import Mathlib

/-!
# Shallow embedding of the cli-file-sync download engine

This file embeds the manifest data model, validation, change detection and
the retry/backoff download loop of the repository (src/schema.rs,
src/main.rs, src/downloader.rs) as executable Lean definitions, and proves
or refutes the specification's claims about them.

Conventions of the embedding:
* Rust `u64`/`usize` become `Nat` (all arithmetic here is far from 2^64,
  and the source performs no wrapping arithmetic on these values).
* Network and filesystem I/O is abstracted: a fetch attempt becomes an
  oracle `Nat → Except String Unit` giving the outcome of the k-th
  attempt; sleeps are recorded as a list of the slept durations (seconds);
  timestamps on failure records are elided.
* `reqwest`/`serde` plumbing is elided; parsing is modelled at the point
  where the body has already been decoded into one of the two accepted
  wire shapes (or failed to decode).

A type-level inconsistency in the source is recorded where relevant:
schema.rs declares `size: Option<u64>` on `DrupalFileAsset`, while
downloader.rs reads `asset.size` as a plain integer (`asset.size >
max_size`, `bytes.len() as u64 != asset.size`), so the repository as given
does not typecheck. The embedding keeps schema.rs's `Option` and embeds
downloader.rs's reads over the declared size; definitions note this where
it matters.
-/

/-- src/schema.rs `DrupalSource`: source information in the metadata. -/
structure DrupalSource where
  source_type : String
  version : String
deriving Repr, DecidableEq

/-- src/schema.rs `DrupalFileAsset`: a single file asset from Drupal.
`size` is `Option Nat` following schema.rs (`#[serde(default)] size:
Option<u64>`); `created`/`changed` are `i64` in the source, embedded as
`Int`. -/
structure DrupalFileAsset where
  id : String
  filename : String
  uri : String
  path : String
  mime : String
  size : Option Nat
  created : Int
  changed : Int
  scheme : String
deriving Repr, DecidableEq

/-- Rust `str::trim_end_matches('/')`: removes all trailing `'/'`
characters.  Embedded on the underlying character list (equivalent to
`String.dropRightWhile (· == '/')`, but reducible by the kernel). -/
def trim_end_slashes (s : String) : String :=
  ⟨(s.data.reverse.dropWhile (fun c => c == '/')).reverse⟩

/-- Rust `str::trim_start_matches('/')`: removes all leading `'/'`
characters. -/
def trim_start_slashes (s : String) : String :=
  ⟨s.data.dropWhile (fun c => c == '/')⟩

/-- src/schema.rs `DrupalFileAsset::validate`: requires `id`, `filename`,
`uri`, `mime` to be non-empty, in that order, returning the first failure. -/
def DrupalFileAsset.validate (a : DrupalFileAsset) : Except String Unit :=
  if a.id.isEmpty then .error "Missing ID"
  else if a.filename.isEmpty then .error "Missing filename"
  else if a.uri.isEmpty then .error "Missing URI"
  else if a.mime.isEmpty then .error "Missing MIME type"
  else .ok ()

/-- src/schema.rs `DrupalFileAsset::get_local_path`: destination path for a
file.  When `path` is empty the filename is appended to the trimmed base
path; otherwise the leading-slash-trimmed `path` is. -/
def DrupalFileAsset.get_local_path (a : DrupalFileAsset) (base_path : String) : String :=
  if a.path.isEmpty then
    trim_end_slashes base_path ++ "/" ++ a.filename
  else
    trim_end_slashes base_path ++ "/" ++ trim_start_slashes a.path

/-- src/schema.rs `DrupalFileAssetsWrapper`: the wrapped wire shape. -/
structure DrupalFileAssetsWrapper where
  version : String
  generated : Int
  source : DrupalSource
  files : List DrupalFileAsset
deriving Repr, DecidableEq

/-- The loop body of src/schema.rs `DrupalFileAssetsWrapper::validate`:
validate each asset in order, aborting at the first invalid one with an
error built from that asset's `id` verbatim. -/
def validateFiles : List DrupalFileAsset → Except String Unit
  | [] => .ok ()
  | a :: rest =>
    match a.validate with
    | .error e => .error ("Asset " ++ a.id ++ " validation failed: " ++ e)
    | .ok _ => validateFiles rest

/-- src/schema.rs `DrupalFileAssetsWrapper::validate`. -/
def DrupalFileAssetsWrapper.validate (w : DrupalFileAssetsWrapper) : Except String Unit :=
  validateFiles w.files

/-- src/schema.rs `DrupalFileAssetsResponse`: the two accepted wire shapes. -/
inductive DrupalFileAssetsResponse where
  | Wrapper (w : DrupalFileAssetsWrapper)
  | Array (assets : List DrupalFileAsset)
deriving Repr, DecidableEq

/-- src/schema.rs `DrupalFileAssetsResponse::into_vec`. -/
def DrupalFileAssetsResponse.into_vec : DrupalFileAssetsResponse → List DrupalFileAsset
  | .Wrapper w => w.files
  | .Array assets => assets

/-- src/main.rs `download_metadata`, lines 216-263, modelled at the point
where the body text has been decoded: `parsed = some r` when the body
parsed as one of the two wire shapes (wrapper tried first, then bare
array), `none` when both parses failed.  On success the record list is
returned as-is: `download_metadata` calls no validation whatsoever, so
invalid records flow through to the caller (`handle_sync_command`, which
hands them to `Downloader::download_files`). -/
def download_metadata_records (parsed : Option DrupalFileAssetsResponse) :
    Except String (List DrupalFileAsset) :=
  match parsed with
  | some r => .ok r.into_vec
  | none => .error "Failed to parse metadata as JSON"

/-- src/main.rs `get_changed_assets` builds `old_map: HashMap<id, &asset>`
by collecting from an iterator: on duplicate `id`s the later entry
overwrites, so a lookup returns the LAST old asset with that `id`. -/
def old_map_get (old_assets : List DrupalFileAsset) (i : String) :
    Option DrupalFileAsset :=
  (old_assets.filter (fun a => a.id == i)).getLast?

/-- src/main.rs `get_changed_assets`, lines 130-151: a new asset is kept
when its `id` is absent from the old map, or present with a different
`changed` value; order of `new_assets` is preserved. -/
def get_changed_assets (old_assets new_assets : List DrupalFileAsset) :
    List DrupalFileAsset :=
  new_assets.filter (fun na =>
    match old_map_get old_assets na.id with
    | some oa => decide (oa.changed ≠ na.changed)
    | none => true)

/-- src/downloader.rs `FailedDownload` (the `timestamp: chrono::DateTime`
field is elided — wall-clock time is outside the embedding). -/
structure FailedDownload where
  filename : String
  path : String
  error : String
deriving Repr, DecidableEq

/-- src/downloader.rs `DownloadConfig`. -/
structure DownloadConfig where
  max_concurrent : Nat
  download_delay : Nat
  download_timeout : Nat
  max_retries : Nat
  max_file_size : Option Nat
  base_url : Option String
  username : Option String
  password : Option String
deriving Repr, DecidableEq

/-- src/downloader.rs `impl Default for DownloadConfig`. -/
def DownloadConfig.default : DownloadConfig :=
  { max_concurrent := 3
    download_delay := 100
    download_timeout := 30
    max_retries := 3
    max_file_size := none
    base_url := none
    username := none
    password := none }

/-- src/downloader.rs `Downloader::get_download_url`, lines 129-139: the
URL is base_url with trailing slashes trimmed, then `/`, then `asset.path`
with leading slashes trimmed — `asset.filename` is never consulted. -/
def get_download_url (asset : DrupalFileAsset) (config : DownloadConfig) :
    Except String String :=
  match config.base_url with
  | none => .error "Base URL is required for downloading assets"
  | some base_url =>
    .ok (trim_end_slashes base_url ++ "/" ++ trim_start_slashes asset.path)

/-- The size-limit guard of src/downloader.rs `download_file`, lines
148-168: `if let Some(max_size) = config.max_file_size { if asset.size >
max_size { ... } }`.  The source reads `asset.size` as a plain integer
(schema.rs declares `Option<u64>`); the embedding compares the declared
size when one is present.  When `max_file_size` is `None` the source never
touches `asset.size`, so that case is exact. -/
def sizeExceedsLimit (config : DownloadConfig) (asset : DrupalFileAsset) : Bool :=
  match config.max_file_size, asset.size with
  | some max_size, some s => decide (max_size < s)
  | _, _ => false

/-- Terminal state of the retry loop of src/downloader.rs `download_file`,
lines 174-188: either some attempt succeeded (after `attempts` oracle
calls), or the loop exhausted `max_retries` with the last error (or none,
when `max_retries = 0` and the loop body never ran).  `sleeps` records, in
order, each backoff duration (seconds) passed to `sleep`. -/
inductive LoopOutcome where
  | succeeded (attempts : Nat) (sleeps : List Nat)
  | exhausted (lastError : Option String) (attempts : Nat) (sleeps : List Nat)
deriving Repr, DecidableEq

/-- The `while retries < config.max_retries` loop of src/downloader.rs
`download_file`, lines 174-188.  `oracle k` is the outcome of the k-th
(0-based) call to `attempt_download`.  The loop is embedded with explicit
`fuel`, the number of iterations remaining: each iteration increments
`retries` by exactly one, so with `fuel = max_retries - retries` the
source's guard `retries < max_retries` holds exactly when `fuel > 0`.
After a failed attempt the source does `retries += 1; if retries <
config.max_retries { sleep(Duration::from_secs(1 << retries)) }` — note
the sleep uses the ALREADY-INCREMENTED counter, so the backoff after
failed attempt k is `2^(k+1)` seconds. -/
def attemptLoop (oracle : Nat → Except String Unit) (max_retries : Nat) :
    Nat → Nat → Option String → List Nat → LoopOutcome
  | 0, retries, lastError, sleeps => .exhausted lastError retries sleeps
  | fuel + 1, retries, _lastError, sleeps =>
    match oracle retries with
    | .ok _ => .succeeded (retries + 1) sleeps
    | .error e =>
      attemptLoop oracle max_retries fuel (retries + 1) (some e)
        (if retries + 1 < max_retries then sleeps ++ [2 ^ (retries + 1)] else sleeps)

/-- The observable outcome of one `download_file` call: its returned
`Result`, the failure list after the call (the source pushes onto the
shared `Arc<Mutex<Vec<FailedDownload>>>`; the embedding threads the list),
the number of `attempt_download` calls made, and the backoff sleeps
performed, in order. -/
structure DownloadFileRun where
  result : Except String Unit
  failures : List FailedDownload
  attempts : Nat
  sleeps : List Nat
deriving Repr

/-- src/downloader.rs `Downloader::download_file`, lines 141-201:
1. size-limit guard: push a `FailedDownload` and return `Err` before any
   attempt (destination-directory creation, a filesystem effect, is
   elided);
2. retry loop over `attempt_download` (abstracted as `oracle`);
3. on exhaustion with a recorded last error, push one `FailedDownload`
   carrying it; return `Err(last_error)` or, when no error was recorded
   (`max_retries = 0`), `Err("Unknown error during download")` with no
   push. -/
def download_file (asset : DrupalFileAsset) (config : DownloadConfig)
    (oracle : Nat → Except String Unit) (failures : List FailedDownload) :
    DownloadFileRun :=
  if sizeExceedsLimit config asset then
    let s := asset.size.getD 0
    let m := config.max_file_size.getD 0
    let pushMsg := "File exceeds maximum size limit (" ++ toString s ++ " > " ++
      toString m ++ ")"
    let retMsg := "File " ++ asset.filename ++ " exceeds maximum size limit (" ++
      toString s ++ " > " ++ toString m ++ ")"
    let fd : FailedDownload :=
      { filename := asset.filename, path := asset.path, error := pushMsg }
    { result := .error retMsg, failures := failures ++ [fd], attempts := 0,
      sleeps := [] }
  else
    match attemptLoop oracle config.max_retries config.max_retries 0 none [] with
    | .succeeded n sleeps =>
      { result := .ok (), failures := failures, attempts := n, sleeps := sleeps }
    | .exhausted (some e) n sleeps =>
      let fd : FailedDownload :=
        { filename := asset.filename, path := asset.path, error := e }
      { result := .error e, failures := failures ++ [fd], attempts := n,
        sleeps := sleeps }
    | .exhausted none n sleeps =>
      { result := .error "Unknown error during download", failures := failures,
        attempts := n, sleeps := sleeps }

/-- An HTTP response as `attempt_download` observes it: whether
`response.status().is_success()`, and the byte length of the body. -/
structure HttpResponse where
  status_success : Bool
  bytes_len : Nat
deriving Repr, DecidableEq

/-- src/downloader.rs `Downloader::attempt_download`, lines 203-248,
with the network abstracted to the observed `HttpResponse` and the final
`fs::write` elided.  `declared_size` is the integer the source reads from
`asset.size` (the source treats it as required; schema.rs declares
`Option<u64>` — the repository does not typecheck as given, and there is
no branch skipping the length check when no size is declared: the
comparison `bytes.len() as u64 != asset.size` at line 229 runs on every
successful response). -/
def attempt_download (asset : DrupalFileAsset) (config : DownloadConfig)
    (declared_size : Nat) (resp : HttpResponse) : Except String Unit :=
  match get_download_url asset config with
  | .error e => .error e
  | .ok _url =>
    if !resp.status_success then
      .error ("Failed to download " ++ asset.filename ++ ": HTTP error status")
    else if resp.bytes_len ≠ declared_size then
      .error ("Downloaded file size mismatch for " ++ asset.filename ++
        ": expected " ++ toString declared_size ++ ", got " ++ toString resp.bytes_len)
    else
      .ok ()

/-- The sleeps performed by a finished retry loop, whichever way it ended. -/
def LoopOutcome.sleeps : LoopOutcome → List Nat
  | .succeeded _ s => s
  | .exhausted _ _ s => s

/-- Concrete asset used by witnesses and counterexamples: empty `path`,
no declared `size`. -/
def sampleAsset : DrupalFileAsset :=
  { id := "7", filename := "photo.jpg", uri := "public://photo.jpg", path := "",
    mime := "image/jpeg", size := none, created := 10, changed := 20,
    scheme := "public" }

/-- A second concrete asset with a distinct `id`. -/
def sampleAsset2 : DrupalFileAsset :=
  { id := "8", filename := "doc.pdf", uri := "public://doc.pdf", path := "docs/doc.pdf",
    mime := "application/pdf", size := some 44, created := 11, changed := 30,
    scheme := "public" }

/-- A concrete record violating the §3 invariant: its `id` is empty. -/
def invalidAsset : DrupalFileAsset :=
  { sampleAsset with id := "" }

/-- A concrete asset with a declared size of 10 bytes. -/
def bigAsset : DrupalFileAsset :=
  { sampleAsset with size := some 10 }

/-- Concrete configuration: defaults plus a base URL. -/
def sampleConfig : DownloadConfig :=
  { DownloadConfig.default with base_url := some "http://example.com/" }

/-- `sampleConfig` with `max_retries = 0`. -/
def retryConfig0 : DownloadConfig :=
  { sampleConfig with max_retries := 0 }

/-- `sampleConfig` with `max_retries = 2`. -/
def retryConfig2 : DownloadConfig :=
  { sampleConfig with max_retries := 2 }

/-- `sampleConfig` with `max_retries = 3`. -/
def retryConfig3 : DownloadConfig :=
  { sampleConfig with max_retries := 3 }

/-- `sampleConfig` with a 5-byte file size ceiling. -/
def limitConfig : DownloadConfig :=
  { sampleConfig with max_file_size := some 5 }

/-- A fetch oracle that fails on every attempt, with an error naming the
attempt index. -/
def failOracle : Nat → Except String Unit :=
  fun k => .error ("boom " ++ toString k)

/-! ## Helper lemmas about the retry loop -/

/-- When every attempt fails, the loop exhausts its fuel: it ends in
`exhausted` with `attempts = max_retries`, last error that of the final
attempt, and one backoff of `2^(r+1)` seconds appended after each failed
attempt `r` except the last. -/
theorem attemptLoop_allFail (oracle : Nat → Except String Unit) (err : Nat → String)
    (hor : ∀ k, oracle k = .error (err k)) (max_retries : Nat) :
    ∀ (fuel retries : Nat) (lastError : Option String) (sleeps : List Nat),
      retries + fuel = max_retries →
      attemptLoop oracle max_retries fuel retries lastError sleeps =
        .exhausted (if fuel = 0 then lastError else some (err (max_retries - 1)))
          max_retries
          (sleeps ++ (List.range' (retries + 1) (fuel - 1)).map (fun i => 2 ^ i)) := by
  intro fuel
  induction fuel with
  | zero =>
    intro retries lastError sleeps h
    have hr : retries = max_retries := by omega
    subst hr
    simp [attemptLoop]
  | succ f ih =>
    intro retries lastError sleeps h
    simp only [attemptLoop, hor retries]
    rcases Nat.eq_zero_or_pos f with hf | hf
    · subst hf
      have hlt : ¬ (retries + 1 < max_retries) := by omega
      rw [if_neg hlt]
      rw [ih (retries + 1) (some (err retries)) sleeps (by omega)]
      have hr : retries = max_retries - 1 := by omega
      simp [hr]
    · have hlt : retries + 1 < max_retries := by omega
      rw [if_pos hlt]
      rw [ih (retries + 1) (some (err retries)) (sleeps ++ [2 ^ (retries + 1)]) (by omega)]
      have hf0 : ¬ (f = 0) := by omega
      have hs0 : ¬ (f + 1 = 0) := by omega
      rw [if_neg hf0, if_neg hs0]
      have hrange : List.range' (retries + 1) (f + 1 - 1) =
          (retries + 1) :: List.range' (retries + 2) (f - 1) := by
        have : f + 1 - 1 = (f - 1) + 1 := by omega
        rw [this, List.range'_succ]
      rw [hrange]
      simp

/-- Whatever the oracle does, the sleeps recorded by the loop started at
`retries` are a prefix-contiguous sequence `2^(retries+1), 2^(retries+2),
…`, provided the fuel does not exceed the remaining iterations of the
source's guard. -/
theorem attemptLoop_sleeps_shape (oracle : Nat → Except String Unit) (max_retries : Nat) :
    ∀ (fuel retries : Nat) (lastError : Option String) (sleeps : List Nat),
      retries + fuel ≤ max_retries →
      ∃ t, (attemptLoop oracle max_retries fuel retries lastError sleeps).sleeps =
        sleeps ++ (List.range' (retries + 1) t).map (fun i => 2 ^ i) := by
  intro fuel
  induction fuel with
  | zero =>
    intro retries lastError sleeps _
    exact ⟨0, by simp [attemptLoop, LoopOutcome.sleeps]⟩
  | succ f ih =>
    intro retries lastError sleeps h
    rw [attemptLoop]
    cases horacle : oracle retries with
    | ok u =>
      exact ⟨0, by simp [LoopOutcome.sleeps]⟩
    | error e =>
      rcases Nat.eq_zero_or_pos f with hf | hf
      · subst hf
        by_cases hlt : retries + 1 < max_retries
        · rw [if_pos hlt]
          refine ⟨1, ?_⟩
          simp [attemptLoop, LoopOutcome.sleeps, List.range'_succ]
        · rw [if_neg hlt]
          exact ⟨0, by simp [attemptLoop, LoopOutcome.sleeps]⟩
      · have hlt : retries + 1 < max_retries := by omega
        rw [if_pos hlt]
        obtain ⟨t, ht⟩ := ih (retries + 1) (some e) (sleeps ++ [2 ^ (retries + 1)]) (by omega)
        refine ⟨t + 1, ?_⟩
        rw [ht, List.range'_succ]
        simp

/-- `download_file` forwards the loop's sleeps unchanged when the
size-limit guard does not fire. -/
theorem download_file_sleeps (asset : DrupalFileAsset) (config : DownloadConfig)
    (oracle : Nat → Except String Unit) (failures : List FailedDownload)
    (hguard : sizeExceedsLimit config asset = false) :
    (download_file asset config oracle failures).sleeps =
      (attemptLoop oracle config.max_retries config.max_retries 0 none []).sleeps := by
  rw [download_file, hguard]
  cases h : attemptLoop oracle config.max_retries config.max_retries 0 none [] with
  | succeeded n s => simp [LoopOutcome.sleeps]
  | exhausted lastError n s => cases lastError <;> simp [LoopOutcome.sleeps]

/-! ## C1: resolution of empty-`path` records -/

/-- C1 counterexample: for the concrete record `sampleAsset` (empty
`path`, filename `photo.jpg`) and base URL `http://example.com/`, the
fetch URL is the bare base URL with a trailing slash — the filename is
NOT appended, contradicting the claim that `filename` is used to form the
fetch URL when `path` is empty. -/
theorem C1_counterexample :
    sampleAsset.path = "" ∧
    get_download_url sampleAsset sampleConfig = .ok "http://example.com/" ∧
    "http://example.com/" ≠ "http://example.com/photo.jpg" := by
  refine ⟨rfl, rfl, by decide⟩

/-- C1 (amended): for every Asset Record whose `path` is empty, `filename`
is used to form the local destination path (destination root with trailing
`/` trimmed, then `/`, then `filename`), but the fetch URL is formed from
`path` regardless: it is the base URL with trailing `/` trimmed plus a
single trailing `/`, and `filename` is not appended. -/
theorem C1_empty_path_resolution (a : DrupalFileAsset) (config : DownloadConfig)
    (base root : String) (hpath : a.path = "") (hbase : config.base_url = some base) :
    get_download_url a config = .ok (trim_end_slashes base ++ "/") ∧
    a.get_local_path root = trim_end_slashes root ++ "/" ++ a.filename := by
  constructor
  · simp only [get_download_url, hbase]
    have hempty : trim_start_slashes a.path = "" := by rw [hpath]; rfl
    rw [hempty]
    have : trim_end_slashes base ++ "/" ++ "" = trim_end_slashes base ++ "/" := by
      apply String.ext
      simp [String.data_append]
    rw [this]
  · rw [DrupalFileAsset.get_local_path, if_pos (by rw [hpath]; rfl)]

/-- C1 witness: the amended statement at `sampleAsset`, `sampleConfig`,
destination root `downloads`. -/
theorem C1_empty_path_resolution_witness :
    get_download_url sampleAsset sampleConfig =
      .ok (trim_end_slashes "http://example.com/" ++ "/") ∧
    sampleAsset.get_local_path "downloads" =
      trim_end_slashes "downloads" ++ "/" ++ sampleAsset.filename :=
  C1_empty_path_resolution sampleAsset sampleConfig "http://example.com/" "downloads"
    rfl rfl

/-! ## C2: manifest loading does not validate -/

/-- C2 counterexample: a concrete parsed manifest whose single record has
an empty `id` loads successfully — `download_metadata` returns the record
list, it does not fail with a validation error, and the invalid record is
among the records handed onward for download. -/
theorem C2_counterexample :
    invalidAsset.id = "" ∧
    download_metadata_records (some (.Array [invalidAsset])) = .ok [invalidAsset] :=
  ⟨rfl, rfl⟩

/-- C2 (amended): schema.rs's `DrupalFileAssetsWrapper::validate` would
reject a record list headed by a record with an empty `id`, with an error
naming that record's `id` verbatim — the empty string, not `"unknown"` —
but `download_metadata` never invokes any validation: every successfully
parsed manifest loads as its record list unchanged, and those records
(including invalid ones) are what gets passed on for download. -/
theorem C2_loading_skips_validation (a : DrupalFileAsset)
    (rest : List DrupalFileAsset) (r : DrupalFileAssetsResponse)
    (hid : a.id = "") :
    validateFiles (a :: rest) = .error "Asset  validation failed: Missing ID" ∧
    download_metadata_records (some r) = .ok r.into_vec := by
  constructor
  · have hval : a.validate = .error "Missing ID" := by
      rw [DrupalFileAsset.validate, if_pos (by rw [hid]; rfl)]
    rw [validateFiles, hval, hid]
    rfl
  · rfl

/-- C2 witness: the amended statement at the concrete invalid record and
the concrete bare-array manifest containing it. -/
theorem C2_loading_skips_validation_witness :
    validateFiles [invalidAsset] = .error "Asset  validation failed: Missing ID" ∧
    download_metadata_records (some (.Array [invalidAsset])) =
      .ok (DrupalFileAssetsResponse.into_vec (.Array [invalidAsset])) :=
  C2_loading_skips_validation invalidAsset [] (.Array [invalidAsset]) rfl

/-! ## C5: the length check is unconditional -/

/-- C5: on a fetch attempt with a successful HTTP status, the downloaded
byte length is compared to the integer the source reads from `asset.size`
on EVERY attempt — the attempt succeeds exactly when the byte count equals
it.  There is no branch that skips the check for a record with no declared
size: downloader.rs:229 reads `asset.size` as a required integer (which
does not even typecheck against schema.rs's `size: Option<u64>`). -/
theorem C5_length_check_unconditional (asset : DrupalFileAsset)
    (config : DownloadConfig) (b : String) (declared_size : Nat)
    (resp : HttpResponse) (hbase : config.base_url = some b)
    (hok : resp.status_success = true) :
    attempt_download asset config declared_size resp = .ok () ↔
      resp.bytes_len = declared_size := by
  rw [attempt_download, get_download_url, hbase]
  simp only [hok, Bool.not_true, Bool.false_eq_true, if_false]
  by_cases h : resp.bytes_len = declared_size <;> simp [h]

/-- C5 witness: a successful 5-byte response against a declared size of 5
passes `attempt_download`. -/
theorem C5_length_check_unconditional_witness :
    attempt_download sampleAsset sampleConfig 5
      { status_success := true, bytes_len := 5 } = .ok () :=
  (C5_length_check_unconditional sampleAsset sampleConfig "http://example.com/" 5
    { status_success := true, bytes_len := 5 } rfl rfl).mpr rfl

/-! ## C3: retry bound and single failure record -/

/-- C3 counterexample: with `max_retries = 0` (an asset within the size
limit, every fetch failing), `download_file` appends NO `FailedDownload`
record — the failure list stays empty, not of length one as the claim
requires for every `max_retries`. -/
theorem C3_counterexample :
    (download_file sampleAsset retryConfig0 failOracle []).failures = [] ∧
    (download_file sampleAsset retryConfig0 failOracle []).failures.length ≠ 1 :=
  ⟨by decide, by decide⟩

/-- C3 (amended): for every asset within the size limit whose fetch fails
on every attempt, provided `max_retries ≥ 1`, `download_file` performs
exactly `max_retries` fetch attempts (no more) and appends exactly one
`FailedDownload` record, carrying the error of the last attempt, to the
failure list (with `max_retries = 0` no attempt is made and nothing is
appended). -/
theorem C3_retry_bound (asset : DrupalFileAsset) (config : DownloadConfig)
    (oracle : Nat → Except String Unit) (err : Nat → String)
    (failures : List FailedDownload)
    (hguard : sizeExceedsLimit config asset = false)
    (hfail : ∀ k, oracle k = .error (err k))
    (hpos : 1 ≤ config.max_retries) :
    (download_file asset config oracle failures).attempts = config.max_retries ∧
    (download_file asset config oracle failures).failures =
      failures ++ [⟨asset.filename, asset.path, err (config.max_retries - 1)⟩] := by
  have hloop := attemptLoop_allFail oracle err hfail config.max_retries
    config.max_retries 0 none [] (by omega)
  rw [if_neg (by omega : ¬ (config.max_retries = 0))] at hloop
  rw [download_file, hguard]
  simp only [Bool.false_eq_true, if_false, hloop]
  exact ⟨trivial, trivial⟩

/-- C3 witness: the amended statement at `sampleAsset`, `max_retries = 3`,
and the always-failing oracle; the single recorded failure carries the
last attempt's error `boom 2`. -/
theorem C3_retry_bound_witness :
    (download_file sampleAsset retryConfig3 failOracle []).attempts = 3 ∧
    (download_file sampleAsset retryConfig3 failOracle []).failures =
      [{ filename := "photo.jpg", path := "", error := "boom 2" }] := by
  have h := C3_retry_bound sampleAsset retryConfig3 failOracle
    (fun k => "boom " ++ toString k) [] (by decide) (fun k => rfl) (by decide)
  exact ⟨h.1, h.2⟩

/-! ## C4: the backoff starts at 2 time units, not 1 -/

/-- C4 counterexample: with `max_retries = 2` and every fetch failing, the
single backoff — inserted after failed attempt k = 0, before attempt 1 —
is 2 seconds, not the `2^0 = 1` the claim states. -/
theorem C4_counterexample :
    (download_file sampleAsset retryConfig2 failOracle []).sleeps = [2] ∧
    (2 : Nat) ≠ 2 ^ 0 :=
  ⟨by decide, by decide⟩

/-- C4 (amended): for every asset and every failed fetch attempt k
(0-based) that is followed by another attempt, the backoff delay inserted
before attempt k+1 — the k-th backoff of the run — is `2^(k+1)` time
units: exponential starting at 2 units (the source sleeps `1 <<
retries` AFTER incrementing `retries`). -/
theorem C4_backoff_exponential_from_two (asset : DrupalFileAsset)
    (config : DownloadConfig) (oracle : Nat → Except String Unit)
    (failures : List FailedDownload) (k d : Nat)
    (h : (download_file asset config oracle failures).sleeps[k]? = some d) :
    d = 2 ^ (k + 1) := by
  by_cases hguard : sizeExceedsLimit config asset = true
  · rw [download_file, if_pos hguard] at h
    simp at h
  · have hg : sizeExceedsLimit config asset = false := by
      simpa using hguard
    rw [download_file_sleeps asset config oracle failures hg] at h
    obtain ⟨t, ht⟩ := attemptLoop_sleeps_shape oracle config.max_retries
      config.max_retries 0 none [] (by omega)
    rw [ht] at h
    simp only [List.nil_append] at h
    rw [List.getElem?_map] at h
    cases hk : (List.range' (0 + 1) t)[k]? with
    | none => rw [hk] at h; simp at h
    | some v =>
      rw [hk] at h
      simp only [Option.map_some'] at h
      have hkt : k < t := by
        by_contra hge
        rw [List.getElem?_eq_none (by simpa using hge)] at hk
        exact Option.noConfusion hk
      rw [List.getElem?_range' (0 + 1) 1 hkt] at hk
      have hv : v = 1 + k := by
        have := Option.some.inj hk
        omega
      have hd : d = 2 ^ v := (Option.some.inj h).symm
      rw [hd, hv, Nat.add_comm 1 k]

/-- C4 witness: the amended statement at the concrete failing run with
`max_retries = 2`: its 0-th backoff is 2 = `2^(0+1)` seconds. -/
theorem C4_backoff_exponential_from_two_witness :
    (download_file sampleAsset retryConfig2 failOracle []).sleeps[0]? = some 2 ∧
    (2 : Nat) = 2 ^ (0 + 1) :=
  ⟨by decide, C4_backoff_exponential_from_two sampleAsset retryConfig2 failOracle []
    0 2 (by decide)⟩

/-! ## C6: size-limit short-circuit -/

/-- C6: for every record whose declared `size` exceeds the configured
`max_file_size`, `download_file` appends one `FailedDownload` record and
returns the size-limit error with zero fetch attempts made and zero
backoffs — the rejection is immediate and never retried. -/
theorem C6_size_limit_short_circuit (asset : DrupalFileAsset)
    (config : DownloadConfig) (oracle : Nat → Except String Unit)
    (failures : List FailedDownload) (m s : Nat)
    (hm : config.max_file_size = some m) (hs : asset.size = some s)
    (hlt : m < s) :
    (download_file asset config oracle failures).result =
      .error ("File " ++ asset.filename ++ " exceeds maximum size limit (" ++
        toString s ++ " > " ++ toString m ++ ")") ∧
    (download_file asset config oracle failures).failures =
      failures ++ [⟨asset.filename, asset.path,
        "File exceeds maximum size limit (" ++ toString s ++ " > " ++
          toString m ++ ")"⟩] ∧
    (download_file asset config oracle failures).attempts = 0 ∧
    (download_file asset config oracle failures).sleeps = [] := by
  have hguard : sizeExceedsLimit config asset = true := by
    rw [sizeExceedsLimit, hm, hs]
    simpa using hlt
  rw [download_file, if_pos hguard]
  rw [hm, hs]
  exact ⟨rfl, rfl, rfl, rfl⟩

/-- C6 witness: `bigAsset` (declared size 10) against a 5-byte ceiling:
one failure record, zero attempts, zero backoffs. -/
theorem C6_size_limit_short_circuit_witness :
    (download_file bigAsset limitConfig failOracle []).result =
      .error ("File " ++ "photo.jpg" ++ " exceeds maximum size limit (" ++
        toString 10 ++ " > " ++ toString 5 ++ ")") ∧
    (download_file bigAsset limitConfig failOracle []).failures =
      [⟨"photo.jpg", "",
        "File exceeds maximum size limit (" ++ toString 10 ++ " > " ++
          toString 5 ++ ")"⟩] ∧
    (download_file bigAsset limitConfig failOracle []).attempts = 0 ∧
    (download_file bigAsset limitConfig failOracle []).sleeps = [] := by
  have h := C6_size_limit_short_circuit bigAsset limitConfig failOracle [] 5 10
    rfl rfl (by decide)
  exact ⟨h.1, h.2.1, h.2.2.1, h.2.2.2⟩

/-! ## C10: zero retries -/

/-- C10: for every asset within the size limit, if `max_retries = 0` then
`download_file` makes zero fetch attempts, leaves the failure list
unchanged (so the asset never appears in the drained report), and returns
the generic `Unknown error during download` error. -/
theorem C10_zero_retries (asset : DrupalFileAsset) (config : DownloadConfig)
    (oracle : Nat → Except String Unit) (failures : List FailedDownload)
    (hguard : sizeExceedsLimit config asset = false)
    (h0 : config.max_retries = 0) :
    (download_file asset config oracle failures).attempts = 0 ∧
    (download_file asset config oracle failures).failures = failures ∧
    (download_file asset config oracle failures).result =
      .error "Unknown error during download" := by
  have hrun : download_file asset config oracle failures =
      { result := .error "Unknown error during download", failures := failures,
        attempts := 0, sleeps := [] } := by
    rw [download_file, hguard, h0]
    rfl
  rw [hrun]
  exact ⟨rfl, rfl, rfl⟩

/-- C10 witness: the statement at `sampleAsset` with `retryConfig0`
(`max_retries = 0`, no size limit) and the always-failing oracle. -/
theorem C10_zero_retries_witness :
    (download_file sampleAsset retryConfig0 failOracle []).attempts = 0 ∧
    (download_file sampleAsset retryConfig0 failOracle []).failures = [] ∧
    (download_file sampleAsset retryConfig0 failOracle []).result =
      .error "Unknown error during download" :=
  C10_zero_retries sampleAsset retryConfig0 failOracle [] (by decide) rfl

/-! ## C7, C8: change-detector properties -/

/-- With `id`s unique in `M`, filtering `M` for an element's own `id`
returns exactly that element. -/
theorem filter_id_eq_single {M : List DrupalFileAsset} {a : DrupalFileAsset}
    (hnd : (M.map (fun x => x.id)).Nodup) (ha : a ∈ M) :
    M.filter (fun x => x.id == a.id) = [a] := by
  induction M with
  | nil => cases ha
  | cons b t ih =>
    rw [List.map_cons, List.nodup_cons] at hnd
    rcases List.mem_cons.mp ha with rfl | hat
    · rw [List.filter_cons_of_pos (by simp)]
      have ht : t.filter (fun x => x.id == a.id) = [] := by
        rw [List.filter_eq_nil_iff]
        intro x hx hxid
        exact hnd.1 (List.mem_map.mpr ⟨x, hx, by simpa using hxid⟩)
      rw [ht]
    · have hba : b.id ≠ a.id := by
        intro heq
        exact hnd.1 (heq ▸ List.mem_map.mpr ⟨a, hat, rfl⟩)
      rw [List.filter_cons_of_neg (by simpa using hba)]
      exact ih hnd.2 hat

/-- C7: change-detector idempotence — for every manifest `M` whose record
`id`s are unique, `get_changed_assets M M` is empty: no record is
considered changed against itself. -/
theorem C7_delta_idempotent (M : List DrupalFileAsset)
    (hnd : (M.map (fun a => a.id)).Nodup) :
    get_changed_assets M M = [] := by
  rw [get_changed_assets, List.filter_eq_nil_iff]
  intro a ha
  have hfilter := filter_id_eq_single hnd ha
  simp [old_map_get, hfilter]

/-- C7 witness: the concrete two-record manifest with distinct `id`s has
an empty self-delta. -/
theorem C7_delta_idempotent_witness :
    get_changed_assets [sampleAsset, sampleAsset2] [sampleAsset, sampleAsset2] = [] :=
  C7_delta_idempotent [sampleAsset, sampleAsset2] (by decide)

/-- C8: change-detector completeness — every record of `new_assets` whose
`id` does not occur among the `id`s of `old_assets` appears in
`get_changed_assets old_assets new_assets`. -/
theorem C8_delta_complete (old_assets new_assets : List DrupalFileAsset)
    (a : DrupalFileAsset) (ha : a ∈ new_assets)
    (hid : a.id ∉ old_assets.map (fun b => b.id)) :
    a ∈ get_changed_assets old_assets new_assets := by
  rw [get_changed_assets, List.mem_filter]
  refine ⟨ha, ?_⟩
  have hfilter : old_assets.filter (fun x => x.id == a.id) = [] := by
    rw [List.filter_eq_nil_iff]
    intro b hb hbid
    exact hid (List.mem_map.mpr ⟨b, hb, by simpa using hbid⟩)
  simp [old_map_get, hfilter]

/-- C8 witness: `sampleAsset2` (id `8`) is new relative to
`[sampleAsset]` (whose only id is `7`) and appears in the delta. -/
theorem C8_delta_complete_witness :
    sampleAsset2 ∈ get_changed_assets [sampleAsset] [sampleAsset, sampleAsset2] :=
  C8_delta_complete [sampleAsset] [sampleAsset, sampleAsset2] sampleAsset2
    (by decide) (by decide)
